import Mathlib

/-!
Shallow embedding of the pantryfy repository's core:
the expiration utilities (src/utils/expiration.ts) and the
pantry/shopping store (src/store/usePantryStore.ts), with proofs of
their contracts.

JavaScript `Date` values are modelled as integer millisecond timestamps
(`Int`); `setHours(0,0,0,0)` becomes truncation to the enclosing day
boundary, with local time identified with UTC; the `expirationDate`
string fields are modelled by their parsed timestamps.  JavaScript
numbers used as quantities are modelled as `Int`.  Nondeterministic
inputs of the store operations (`generateId()`, `new Date()`) are passed
as explicit arguments.
-/

namespace Pantryfy

/-- Milliseconds in one day: `24 * 60 * 60 * 1000 = 86400000`
(the `oneDay` constant of `daysBetween`). -/
def oneDay : Int := 86400000

/-- JavaScript `Math.round (num / den)` for a positive denominator `den`:
`Math.round x = ⌊x + 1/2⌋`, hence the result is `⌊(2*num + den) / (2*den)⌋`. -/
def mathRoundDiv (num den : Int) : Int := (2 * num + den).fdiv (2 * den)

/-- Embeds `daysBetween(date1, date2)` from src/utils/expiration.ts:
`Math.round((date2.getTime() - date1.getTime()) / oneDay)`. -/
def daysBetween (date1 date2 : Int) : Int := mathRoundDiv (date2 - date1) oneDay

/-- Models `d.setHours(0, 0, 0, 0)`: truncate a timestamp to the midnight that
starts its day. -/
def setMidnight (t : Int) : Int := oneDay * (t.fdiv oneDay)

/-- The `ExpirationStatus` union type from src/types/pantry.ts. -/
inductive ExpirationStatus where
  | expired
  | expiring
  | fresh
  deriving DecidableEq, Repr

/-- Embeds `getExpirationStatus(expirationDate)` from src/utils/expiration.ts;
`today` is passed explicitly instead of calling `new Date()`. -/
def getExpirationStatus (today expirationDate : Int) : ExpirationStatus :=
  let t := setMidnight today
  let expDate := setMidnight expirationDate
  let daysUntilExpiration := daysBetween t expDate
  if daysUntilExpiration < 0 then .expired
  else if daysUntilExpiration ≤ 3 then .expiring
  else .fresh

/-- Embeds `getExpirationDescription(expirationDate)` from src/utils/expiration.ts;
`formatDate` (a wrapper around the locale-dependent `toLocaleDateString`)
is an explicit parameter, and `today` is passed explicitly. -/
def getExpirationDescription (formatDate : Int → String) (today expirationDate : Int) :
    String :=
  let t := setMidnight today
  let expDate := setMidnight expirationDate
  let daysUntil := daysBetween t expDate
  if daysUntil < 0 then
    let daysPast := daysUntil.natAbs
    if daysPast = 1 then "Expired 1 day ago"
    else "Expired " ++ toString daysPast ++ " days ago"
  else if daysUntil = 0 then "Expires today"
  else if daysUntil = 1 then "Expires tomorrow"
  else if daysUntil ≤ 3 then "Expires in " ++ toString daysUntil ++ " days"
  else "Expires " ++ formatDate expirationDate

/-- Embeds `isLowStock(quantity, threshold = 2)` from src/utils/expiration.ts;
every caller in the repository uses the default threshold `2`. -/
def isLowStock (quantity threshold : Int) : Bool := quantity < threshold

/-- One insertion step of a stable ascending sort by `key` (the parsed
`expirationDate` timestamp): the new element goes in front of the first
element whose key is not smaller. -/
def insertByKey (key : α → Int) (x : α) : List α → List α
  | [] => [x]
  | y :: ys => if key x ≤ key y then x :: y :: ys else y :: insertByKey key x ys

/-- Embeds `sortByExpirationDate(items)` from src/utils/expiration.ts:
`[...items].sort((a, b) => dateA - dateB)` — a stable ascending sort by
the parsed expiration timestamp that leaves the input untouched, modelled
as stable insertion sort. -/
def sortByExpirationDate (key : α → Int) : List α → List α
  | [] => []
  | x :: xs => insertByKey key x (sortByExpirationDate key xs)

/-- JS `toLowerCase()`: `String.toLower`, written as a plain map over
the character list so that it evaluates by kernel reduction. -/
def jsToLower (s : String) : String := ⟨s.data.map Char.toLower⟩

/-- The `source` union type `'manual' | 'low-stock' | 'expired'` of
`ShoppingItem` in src/types/pantry.ts. -/
inductive Source where
  | manual
  | lowStock
  | expired
  deriving DecidableEq, Repr

/-- Embeds `PantryItem` from src/types/pantry.ts.  `category` and `unit` are
string enumerations, modelled as strings. -/
structure PantryItem where
  id : String
  name : String
  category : String
  quantity : Int
  unit : String
  expirationDate : Int
  createdAt : String
  updatedAt : Option String
  deriving DecidableEq, Repr

/-- Embeds `ShoppingItem` from src/types/pantry.ts. -/
structure ShoppingItem where
  id : String
  name : String
  category : String
  quantity : Int
  unit : String
  checked : Bool
  source : Source
  createdAt : String
  deriving DecidableEq, Repr

/-- Embeds `PantryItemFormData` from src/types/pantry.ts. -/
structure PantryItemFormData where
  name : String
  category : String
  quantity : Int
  unit : String
  expirationDate : Int
  deriving DecidableEq, Repr

/-- Models `Partial<PantryItemFormData>`: each form field optionally present. -/
structure PantryItemFormPatch where
  name : Option String
  category : Option String
  quantity : Option Int
  unit : Option String
  expirationDate : Option Int
  deriving DecidableEq, Repr

/-- The persisted slice of the zustand store:
`{ items, shoppingList }`. -/
structure StoreState where
  items : List PantryItem
  shoppingList : List ShoppingItem
  deriving DecidableEq, Repr

/-- Embeds `addItem(data)` from src/store/usePantryStore.ts; the fresh id
(`generateId()`) and timestamp (`new Date().toISOString()`) are passed
explicitly. -/
def addItem (newId now : String) (data : PantryItemFormData) (s : StoreState) :
    StoreState :=
  { s with items := s.items ++ [{
      id := newId
      name := data.name
      category := data.category
      quantity := data.quantity
      unit := data.unit
      expirationDate := data.expirationDate
      createdAt := now
      updatedAt := some now }] }

/-- The JS spread `{ ...item, ...data, updatedAt: now }` applied to a
partial form patch: supplied fields override, `updatedAt` is refreshed. -/
def applyPatch (item : PantryItem) (data : PantryItemFormPatch) (now : String) :
    PantryItem :=
  { item with
      name := data.name.getD item.name
      category := data.category.getD item.category
      quantity := data.quantity.getD item.quantity
      unit := data.unit.getD item.unit
      expirationDate := data.expirationDate.getD item.expirationDate
      updatedAt := some now }

/-- Embeds `updateItem(id, data)` from src/store/usePantryStore.ts. -/
def updateItem (now : String) (id : String) (data : PantryItemFormPatch)
    (s : StoreState) : StoreState :=
  { s with items := s.items.map (fun item =>
      if item.id = id then applyPatch item data now else item) }

/-- Embeds `removeItem(id)` from src/store/usePantryStore.ts. -/
def removeItem (id : String) (s : StoreState) : StoreState :=
  { s with items := s.items.filter (fun item => item.id ≠ id) }

/-- Embeds `getItemById(id)` from src/store/usePantryStore.ts. -/
def getItemById (id : String) (s : StoreState) : Option PantryItem :=
  s.items.find? (fun item => item.id = id)

/-- Embeds `addToShoppingList(name, category, quantity, unit, source)` from
src/store/usePantryStore.ts; the fresh id and timestamp of the
potentially created entry are passed explicitly. -/
def addToShoppingList (newId now : String) (name category : String) (quantity : Int)
    (unit : String) (source : Source) (s : StoreState) : StoreState :=
  match s.shoppingList.find? (fun item => jsToLower item.name = jsToLower name) with
  | some existing =>
      { s with shoppingList := s.shoppingList.map (fun item =>
          if item.id = existing.id then { item with quantity := item.quantity + quantity }
          else item) }
  | none =>
      { s with shoppingList := s.shoppingList ++ [{
          id := newId
          name := name
          category := category
          quantity := quantity
          unit := unit
          checked := false
          source := source
          createdAt := now }] }

/-- Embeds `toggleShoppingItem(id)` from src/store/usePantryStore.ts. -/
def toggleShoppingItem (id : String) (s : StoreState) : StoreState :=
  { s with shoppingList := s.shoppingList.map (fun item =>
      if item.id = id then { item with checked := !item.checked } else item) }

/-- Embeds `removeShoppingItem(id)` from src/store/usePantryStore.ts. -/
def removeShoppingItem (id : String) (s : StoreState) : StoreState :=
  { s with shoppingList := s.shoppingList.filter (fun item => item.id ≠ id) }

/-- Embeds `clearCheckedItems()` from src/store/usePantryStore.ts. -/
def clearCheckedItems (s : StoreState) : StoreState :=
  { s with shoppingList := s.shoppingList.filter (fun item => !item.checked) }

/-- Embeds `clearShoppingList()` from src/store/usePantryStore.ts. -/
def clearShoppingList (s : StoreState) : StoreState :=
  { s with shoppingList := [] }

/-- Embeds `autoAddLowStockToShoppingList()` from src/store/usePantryStore.ts;
`today` and the supply `ids` of fresh ids for the `addToShoppingList`
calls are explicit.  Returns the new state with the returned count. -/
def autoAddLowStockToShoppingList (today : Int) (ids : Nat → String) (now : String)
    (s : StoreState) : StoreState × Nat :=
  let lowStockItems := s.items.filter (fun item =>
    isLowStock item.quantity 2 &&
      getExpirationStatus today item.expirationDate ≠ ExpirationStatus.expired)
  (lowStockItems.enum.foldl (fun st p =>
      addToShoppingList (ids p.1) now p.2.name p.2.category 2 p.2.unit Source.lowStock st)
    s,
   lowStockItems.length)

/-- Embeds `autoAddExpiredToShoppingList()` from src/store/usePantryStore.ts;
`today` and the supply of fresh ids are explicit. -/
def autoAddExpiredToShoppingList (today : Int) (ids : Nat → String) (now : String)
    (s : StoreState) : StoreState × Nat :=
  let expiredItems := s.items.filter (fun item =>
    getExpirationStatus today item.expirationDate = ExpirationStatus.expired)
  (expiredItems.enum.foldl (fun st p =>
      addToShoppingList (ids p.1) now p.2.name p.2.category 1 p.2.unit Source.expired st)
    s,
   expiredItems.length)

/-- Embeds `getItemsByCategory(category)` from src/store/usePantryStore.ts. -/
def getItemsByCategory (category : String) (s : StoreState) : List PantryItem :=
  s.items.filter (fun item => item.category = category)

/-- Embeds `getSortedByExpiration()` from src/store/usePantryStore.ts:
`[...items].sort((a, b) => dateA - dateB)`, the same stable ascending
sort by parsed expiration timestamp as `sortByExpirationDate`. -/
def getSortedByExpiration (s : StoreState) : List PantryItem :=
  sortByExpirationDate (fun item => item.expirationDate) s.items

/-! Sample data used by the concrete witnesses. -/

/-- A pantry item that expired one day before time 0: quantity 1, so it is
also below the low-stock threshold. -/
def breadItem : PantryItem :=
  { id := "p1", name := "Bread", category := "Bakery", quantity := 1,
    unit := "pieces", expirationDate := -oneDay, createdAt := "t0", updatedAt := none }

/-- A low-stock pantry item expiring three days after time 0. -/
def milkItem : PantryItem :=
  { id := "p2", name := "Milk", category := "Dairy", quantity := 1,
    unit := "liters", expirationDate := 3 * oneDay, createdAt := "t0", updatedAt := none }

/-- A second low-stock fresh item whose name matches `milkItem`
case-insensitively. -/
def milkItem2 : PantryItem :=
  { id := "p3", name := "MILK", category := "Dairy", quantity := 0,
    unit := "liters", expirationDate := 9 * oneDay, createdAt := "t0", updatedAt := none }

/-- A well-stocked fresh pantry item. -/
def riceItem : PantryItem :=
  { id := "p4", name := "Rice", category := "Grains & Pasta", quantity := 5,
    unit := "kg", expirationDate := 30 * oneDay, createdAt := "t0", updatedAt := none }

/-- An unchecked shopping entry. -/
def shopEggs : ShoppingItem :=
  { id := "s1", name := "Eggs", category := "Dairy", quantity := 12,
    unit := "pieces", checked := false, source := Source.manual, createdAt := "t0" }

/-- A second unchecked shopping entry. -/
def shopJam : ShoppingItem :=
  { id := "s2", name := "Jam", category := "Condiments & Sauces", quantity := 1,
    unit := "bottles", checked := false, source := Source.manual, createdAt := "t0" }

/-- A sample store state. -/
def sampleState : StoreState :=
  { items := [breadItem, milkItem, milkItem2, riceItem],
    shoppingList := [shopEggs, shopJam] }

/-- A supply of fresh ids for the auto-populate witnesses. -/
def freshIds (n : Nat) : String := "fresh" ++ toString n

/-- A partial form patch updating only the quantity. -/
def samplePatch : PantryItemFormPatch :=
  { name := none, category := none, quantity := some 4, unit := none,
    expirationDate := none }

/-- A store whose only pantry item expired yesterday (relative to time 0)
and whose shopping list is empty. -/
def breadOnlyState : StoreState :=
  { items := [breadItem], shoppingList := [] }

/-!  Theorems. -/

/-- Truncating to midnight commutes with shifting by whole days. -/
theorem setMidnight_add_days (t k : Int) :
    setMidnight (t + k * oneDay) = setMidnight t + k * oneDay := by
  unfold setMidnight oneDay
  rw [Int.fdiv_eq_ediv _ (by norm_num), Int.fdiv_eq_ediv _ (by norm_num)]
  omega

/-- Evaluation of `daysBetween` over an exact whole number of days. -/
theorem daysBetween_of_days (a k : Int) : daysBetween a (a + k * oneDay) = k := by
  unfold daysBetween mathRoundDiv oneDay
  rw [Int.fdiv_eq_ediv _ (by norm_num)]
  omega

/-- The classifier, on an expiration date a whole number `k` of days
after `today`. -/
theorem getExpirationStatus_days (today k : Int) :
    getExpirationStatus today (today + k * oneDay) =
      if k < 0 then .expired else if k ≤ 3 then .expiring else .fresh := by
  simp only [getExpirationStatus, setMidnight_add_days, daysBetween_of_days]

/-- C1: with `d` the rounded whole-day difference between today at midnight
and the expiration date at midnight, the classifier returns `expired` iff
`d < 0`, `expiring` iff `0 ≤ d ≤ 3`, and `fresh` iff `d > 3`; in particular
`classify(today) = expiring`, `classify(today+3d) = expiring`,
`classify(today+4d) = fresh`, and `classify(today-1d) = expired`. -/
theorem getExpirationStatus_spec (today exp : Int) :
    (getExpirationStatus today exp = .expired ↔
      daysBetween (setMidnight today) (setMidnight exp) < 0) ∧
    (getExpirationStatus today exp = .expiring ↔
      0 ≤ daysBetween (setMidnight today) (setMidnight exp) ∧
        daysBetween (setMidnight today) (setMidnight exp) ≤ 3) ∧
    (getExpirationStatus today exp = .fresh ↔
      3 < daysBetween (setMidnight today) (setMidnight exp)) ∧
    getExpirationStatus today today = .expiring ∧
    getExpirationStatus today (today + 3 * oneDay) = .expiring ∧
    getExpirationStatus today (today + 4 * oneDay) = .fresh ∧
    getExpirationStatus today (today - 1 * oneDay) = .expired := by
  refine ⟨?_, ?_, ?_, ?_, ?_, ?_, ?_⟩
  · simp only [getExpirationStatus]
    split_ifs with h1 h2 <;> simp_all
  · simp only [getExpirationStatus]
    split_ifs with h1 h2 <;> simp_all
  · simp only [getExpirationStatus]
    split_ifs with h1 h2 <;> simp_all
    omega
  · have h := getExpirationStatus_days today 0
    simpa using h
  · rw [getExpirationStatus_days today 3]
    norm_num
  · rw [getExpirationStatus_days today 4]
    norm_num
  · rw [show today - 1 * oneDay = today + (-1) * oneDay by ring]
    rw [getExpirationStatus_days today (-1)]
    norm_num

/-- C9: with `d` the whole-day difference from today at midnight, the
description is "Expired N day(s) ago" with `N = |d|` for `d < 0` (singular
exactly at `N = 1`), "Expires today" at `d = 0`, "Expires tomorrow" at
`d = 1`, "Expires in N days" for `2 ≤ d ≤ 3`, and "Expires " followed by
the locale formatting of the date for `d > 3`. -/
theorem getExpirationDescription_spec (fmt : Int → String) (today exp d : Int)
    (hd : daysBetween (setMidnight today) (setMidnight exp) = d) :
    (d = -1 → getExpirationDescription fmt today exp = "Expired 1 day ago") ∧
    (d < -1 → getExpirationDescription fmt today exp =
      "Expired " ++ toString d.natAbs ++ " days ago") ∧
    (d = 0 → getExpirationDescription fmt today exp = "Expires today") ∧
    (d = 1 → getExpirationDescription fmt today exp = "Expires tomorrow") ∧
    (2 ≤ d → d ≤ 3 → getExpirationDescription fmt today exp =
      "Expires in " ++ toString d ++ " days") ∧
    (3 < d → getExpirationDescription fmt today exp = "Expires " ++ fmt exp) := by
  simp only [getExpirationDescription, hd]
  refine ⟨?_, ?_, ?_, ?_, ?_, ?_⟩
  · intro h
    subst h
    norm_num
  · intro h
    rw [if_pos (by omega), if_neg (by omega)]
  · intro h
    subst h
    norm_num
  · intro h
    subst h
    norm_num
  · intro h h2
    rw [if_neg (by omega), if_neg (by omega), if_neg (by omega), if_pos (by omega)]
  · intro h
    rw [if_neg (by omega), if_neg (by omega), if_neg (by omega), if_neg (by omega)]

/-- C9 witness: concrete evaluations of the description at days
-1, 0, 1, 3, and 5 relative to time 0. -/
theorem getExpirationDescription_spec_witness :
    getExpirationDescription (fun _ => "May 5, 1970") 0 (-oneDay) = "Expired 1 day ago" ∧
    getExpirationDescription (fun _ => "May 5, 1970") 0 0 = "Expires today" ∧
    getExpirationDescription (fun _ => "May 5, 1970") 0 oneDay = "Expires tomorrow" ∧
    getExpirationDescription (fun _ => "May 5, 1970") 0 (3 * oneDay) = "Expires in 3 days" ∧
    getExpirationDescription (fun _ => "May 5, 1970") 0 (5 * oneDay) =
      "Expires May 5, 1970" := by
  refine ⟨?_, ?_, ?_, ?_, ?_⟩
  · exact (getExpirationDescription_spec (fun _ => "May 5, 1970") 0 (-oneDay) (-1)
      (by decide)).1 rfl
  · exact (getExpirationDescription_spec (fun _ => "May 5, 1970") 0 0 0
      (by decide)).2.2.1 rfl
  · exact (getExpirationDescription_spec (fun _ => "May 5, 1970") 0 oneDay 1
      (by decide)).2.2.2.1 rfl
  · exact (getExpirationDescription_spec (fun _ => "May 5, 1970") 0 (3 * oneDay) 3
      (by decide)).2.2.2.2.1 (by norm_num) (by norm_num)
  · exact (getExpirationDescription_spec (fun _ => "May 5, 1970") 0 (5 * oneDay) 5
      (by decide)).2.2.2.2.2 (by norm_num)

/-- Permutation: `insertByKey` only repositions the new element. -/
theorem insertByKey_perm (key : α → Int) (x : α) (l : List α) :
    List.Perm (insertByKey key x l) (x :: l) := by
  induction l with
  | nil => exact List.Perm.refl _
  | cons y ys ih =>
    simp only [insertByKey]
    split
    · exact List.Perm.refl _
    · exact (ih.cons y).trans (List.Perm.swap x y ys)

/-- Sorting permutes the input. -/
theorem sortByExpirationDate_perm (key : α → Int) (l : List α) :
    List.Perm (sortByExpirationDate key l) l := by
  induction l with
  | nil => exact List.Perm.refl _
  | cons x xs ih => exact (insertByKey_perm key x _).trans (ih.cons x)

/-- Inserting into a list that is ascending by key keeps it ascending. -/
theorem insertByKey_pairwise (key : α → Int) (x : α) {l : List α}
    (h : l.Pairwise (fun a b => key a ≤ key b)) :
    (insertByKey key x l).Pairwise (fun a b => key a ≤ key b) := by
  induction l with
  | nil => simp [insertByKey]
  | cons y ys ih =>
    rw [List.pairwise_cons] at h
    simp only [insertByKey]
    split_ifs with hxy
    · refine List.pairwise_cons.mpr ⟨?_, List.pairwise_cons.mpr h⟩
      intro b hb
      rcases List.mem_cons.mp hb with rfl | hb'
      · exact hxy
      · exact le_trans hxy (h.1 b hb')
    · refine List.pairwise_cons.mpr ⟨?_, ih h.2⟩
      intro b hb
      rcases List.mem_cons.mp ((insertByKey_perm key x ys).mem_iff.mp hb) with rfl | hb'
      · omega
      · exact h.1 b hb'

/-- The sort output is ascending by key. -/
theorem sortByExpirationDate_pairwise (key : α → Int) (l : List α) :
    (sortByExpirationDate key l).Pairwise (fun a b => key a ≤ key b) := by
  induction l with
  | nil => simp [sortByExpirationDate]
  | cons x xs ih => exact insertByKey_pairwise key x ih

/-- A list already ascending by key is a fixed point of the sort. -/
theorem sortByExpirationDate_of_pairwise (key : α → Int) {l : List α}
    (h : l.Pairwise (fun a b => key a ≤ key b)) :
    sortByExpirationDate key l = l := by
  induction l with
  | nil => rfl
  | cons x xs ih =>
    rw [List.pairwise_cons] at h
    rw [sortByExpirationDate, ih h.2]
    cases xs with
    | nil => rfl
    | cons y ys =>
      have hxy : key x ≤ key y := h.1 y (List.mem_cons_self y ys)
      simp [insertByKey, hxy]

/-- Filtering the elements of one key value commutes with insertion. -/
theorem insertByKey_filter_key (key : α → Int) (x : α) (k : Int) (l : List α) :
    (insertByKey key x l).filter (fun a => decide (key a = k)) =
      if key x = k then x :: l.filter (fun a => decide (key a = k))
      else l.filter (fun a => decide (key a = k)) := by
  induction l with
  | nil =>
    simp only [insertByKey, List.filter_cons, List.filter_nil]
    split_ifs with h <;> simp_all
  | cons y ys ih =>
    simp only [insertByKey]
    split_ifs with hxy hxk hxk2
    · simp [List.filter_cons, hxk]
    · simp [List.filter_cons, hxk]
    · have hyk : ¬(key y = k) := by omega
      simp [List.filter_cons, hyk, ih, hxk2]
    · simp [List.filter_cons, ih, hxk2]

/-- Stability: the subsequence of elements sharing one key value is
unchanged by the sort. -/
theorem sortByExpirationDate_filter_key (key : α → Int) (k : Int) (l : List α) :
    (sortByExpirationDate key l).filter (fun a => decide (key a = k)) =
      l.filter (fun a => decide (key a = k)) := by
  induction l with
  | nil => rfl
  | cons x xs ih =>
    rw [sortByExpirationDate, insertByKey_filter_key]
    by_cases h : key x = k <;> simp [ih, h, List.filter_cons]

/-- C5: the expiration sort produces a new sequence that is ascending by
parsed date, is a permutation of the input (the input itself is
untouched), is stable (for each date value, the subsequence of items with
that date is unchanged), and is idempotent; the store's
`getSortedByExpiration` is exactly this sort applied to the pantry
items. -/
theorem sortByExpirationDate_spec {α : Type} (key : α → Int) (l : List α)
    (k : Int) (s : StoreState) :
    (sortByExpirationDate key l).Pairwise (fun a b => key a ≤ key b) ∧
    List.Perm (sortByExpirationDate key l) l ∧
    (sortByExpirationDate key l).filter (fun a => decide (key a = k)) =
      l.filter (fun a => decide (key a = k)) ∧
    sortByExpirationDate key (sortByExpirationDate key l) = sortByExpirationDate key l ∧
    getSortedByExpiration s =
      sortByExpirationDate (fun item => item.expirationDate) s.items :=
  ⟨sortByExpirationDate_pairwise key l, sortByExpirationDate_perm key l,
   sortByExpirationDate_filter_key key k l,
   sortByExpirationDate_of_pairwise key (sortByExpirationDate_pairwise key l),
   rfl⟩

/-- Mapping a function that fixes every element of a list is the identity. -/
theorem map_eq_self_of_fix {α : Type} {l : List α} {f : α → α}
    (h : ∀ x ∈ l, f x = x) : l.map f = l := by
  rw [List.map_congr_left h, List.map_id']

/-- Behaviour of `addToShoppingList` when no existing entry matches the new name
case-insensitively: a fresh unchecked entry is appended. -/
theorem addToShoppingList_not_found
    (newId now name category : String) (quantity : Int) (unit : String) (source : Source)
    {s : StoreState} (h : ∀ it ∈ s.shoppingList, ¬ jsToLower it.name = jsToLower name) :
    addToShoppingList newId now name category quantity unit source s =
      { s with shoppingList := s.shoppingList ++ [{
          id := newId, name := name, category := category, quantity := quantity,
          unit := unit, checked := false, source := source, createdAt := now }] } := by
  unfold addToShoppingList
  rw [List.find?_eq_none.mpr (by simpa using h)]

/-- Behaviour of `addToShoppingList` when the first case-insensitive match is `e`:
only `e`'s quantity is incremented, provided ids are unique. -/
theorem addToShoppingList_found
    (newId now name category : String) (quantity : Int) (unit : String) (source : Source)
    {s : StoreState} {e : ShoppingItem} {l1 l2 : List ShoppingItem}
    (hdec : s.shoppingList = l1 ++ e :: l2)
    (h1 : ∀ it ∈ l1, ¬ jsToLower it.name = jsToLower name)
    (hm : jsToLower e.name = jsToLower name)
    (h2 : ∀ it ∈ l1, ¬ it.id = e.id)
    (h3 : ∀ it ∈ l2, ¬ it.id = e.id) :
    addToShoppingList newId now name category quantity unit source s =
      { s with shoppingList :=
          l1 ++ { e with quantity := e.quantity + quantity } :: l2 } := by
  unfold addToShoppingList
  rw [hdec, List.find?_append, List.find?_eq_none.mpr (by simpa using h1),
    List.find?_cons_of_pos _ (by simpa using hm), Option.none_or]
  simp only [StoreState.mk.injEq, true_and]
  rw [List.map_append, List.map_cons, if_pos rfl,
    map_eq_self_of_fix (fun x hx => if_neg (h2 x hx)),
    map_eq_self_of_fix (fun x hx => if_neg (h3 x hx))]

/-- C2: if an existing entry matches the given name case-insensitively,
exactly that entry's quantity is incremented and everything else is
unchanged; otherwise a fresh entry with the given fields, `checked =
false`, is appended.  Hence adding the same name twice (case-insensitive)
with quantities `q1`, `q2` yields one entry with quantity `q1 + q2`,
retaining the source of the first call. -/
theorem addToShoppingList_spec
    (newId now name category : String) (quantity : Int) (unit : String) (source : Source)
    (newId2 now2 name2 category2 : String) (q2 : Int) (unit2 : String) (source2 : Source)
    (s : StoreState) (e : ShoppingItem) (l1 l2 : List ShoppingItem) :
    ((∀ it ∈ s.shoppingList, jsToLower it.name ≠ jsToLower name) →
      addToShoppingList newId now name category quantity unit source s =
        { s with shoppingList := s.shoppingList ++ [{
            id := newId, name := name, category := category, quantity := quantity,
            unit := unit, checked := false, source := source, createdAt := now }] }) ∧
    (s.shoppingList = l1 ++ e :: l2 →
      (∀ it ∈ l1, jsToLower it.name ≠ jsToLower name) →
      jsToLower e.name = jsToLower name →
      (∀ it ∈ l1, it.id ≠ e.id) →
      (∀ it ∈ l2, it.id ≠ e.id) →
      addToShoppingList newId now name category quantity unit source s =
        { s with shoppingList :=
            l1 ++ { e with quantity := e.quantity + quantity } :: l2 }) ∧
    ((∀ it ∈ s.shoppingList, jsToLower it.name ≠ jsToLower name) →
      (∀ it ∈ s.shoppingList, it.id ≠ newId) →
      jsToLower name2 = jsToLower name →
      (addToShoppingList newId2 now2 name2 category2 q2 unit2 source2
          (addToShoppingList newId now name category quantity unit source s)).shoppingList =
        s.shoppingList ++ [{
          id := newId, name := name, category := category, quantity := quantity + q2,
          unit := unit, checked := false, source := source, createdAt := now }]) := by
  refine ⟨?_, ?_, ?_⟩
  · intro h
    exact addToShoppingList_not_found newId now name category quantity unit source h
  · intro hdec h1 hm h2 h3
    exact addToShoppingList_found newId now name category quantity unit source hdec h1 hm h2 h3
  · intro h0 hfresh hname
    rw [addToShoppingList_not_found newId now name category quantity unit source h0]
    rw [addToShoppingList_found newId2 now2 name2 category2 q2 unit2 source2 rfl
      (by simpa [hname] using h0) (by simpa using hname.symm)
      (by simpa using hfresh) (by simp)]

/-- C2 witness: merging into the existing `Eggs` entry, and the two-call
merge law at concrete inputs. -/
theorem addToShoppingList_spec_witness :
    (addToShoppingList "s9" "t1" "eggs" "Dairy" 3 "pieces" Source.manual
        sampleState).shoppingList =
      [{ shopEggs with quantity := 15 }, shopJam] ∧
    (addToShoppingList "s11" "t3" "TOFU" "Other" 2 "packages" Source.lowStock
        (addToShoppingList "s10" "t2" "Tofu" "Other" 1 "packages" Source.manual
          sampleState)).shoppingList =
      sampleState.shoppingList ++ [{
        id := "s10", name := "Tofu", category := "Other", quantity := 3,
        unit := "packages", checked := false, source := Source.manual,
        createdAt := "t2" }] := by
  constructor
  · have h := (addToShoppingList_spec "s9" "t1" "eggs" "Dairy" 3 "pieces" Source.manual
      "x" "x" "x" "x" 0 "x" Source.manual sampleState shopEggs [] [shopJam]).2.1
      rfl (by decide) (by decide) (by decide) (by decide)
    rw [h]
    decide
  · have h := (addToShoppingList_spec "s10" "t2" "Tofu" "Other" 1 "packages" Source.manual
      "s11" "t3" "TOFU" "Other" 2 "packages" Source.lowStock sampleState shopEggs [] []).2.2
      (by decide) (by decide) (by decide)
    rw [h]
    norm_num

/-- C6: `updateItem` on an existing id replaces exactly the supplied
fields and refreshes `updatedAt`, leaving `id`, `createdAt`, every other
item, the collection order, and the shopping list unchanged; on an
unknown id the whole state is unchanged. -/
theorem updateItem_spec (now id : String) (data : PantryItemFormPatch) (s : StoreState) :
    ((∀ it ∈ s.items, it.id ≠ id) → updateItem now id data s = s) ∧
    (updateItem now id data s).items.length = s.items.length ∧
    (∀ i (hi : i < s.items.length) (hi2 : i < (updateItem now id data s).items.length),
      ((s.items.get ⟨i, hi⟩).id = id →
        (updateItem now id data s).items.get ⟨i, hi2⟩ = {
          id := (s.items.get ⟨i, hi⟩).id
          name := data.name.getD (s.items.get ⟨i, hi⟩).name
          category := data.category.getD (s.items.get ⟨i, hi⟩).category
          quantity := data.quantity.getD (s.items.get ⟨i, hi⟩).quantity
          unit := data.unit.getD (s.items.get ⟨i, hi⟩).unit
          expirationDate := data.expirationDate.getD (s.items.get ⟨i, hi⟩).expirationDate
          createdAt := (s.items.get ⟨i, hi⟩).createdAt
          updatedAt := some now }) ∧
      ((s.items.get ⟨i, hi⟩).id ≠ id →
        (updateItem now id data s).items.get ⟨i, hi2⟩ = s.items.get ⟨i, hi⟩)) ∧
    (updateItem now id data s).shoppingList = s.shoppingList := by
  refine ⟨?_, ?_, ?_, rfl⟩
  · intro h
    have hmap : s.items.map (fun item =>
        if item.id = id then applyPatch item data now else item) = s.items :=
      map_eq_self_of_fix (fun x hx => if_neg (h x hx))
    simp [updateItem, hmap]
  · simp [updateItem]
  · intro i hi hi2
    constructor
    · intro hid
      simp only [List.get_eq_getElem] at hid
      simp only [updateItem, List.get_eq_getElem, List.getElem_map] at hi2 ⊢
      rw [if_pos hid]
      rfl
    · intro hid
      simp only [List.get_eq_getElem] at hid
      simp only [updateItem, List.get_eq_getElem, List.getElem_map] at hi2 ⊢
      rw [if_neg hid]

/-- C6 witness: an unknown id is a no-op on the sample state; patching
item `p2` updates only its quantity and `updatedAt`. -/
theorem updateItem_spec_witness :
    updateItem "t9" "nonexistent-id" samplePatch sampleState = sampleState ∧
    (updateItem "t9" "p2" samplePatch sampleState).items.get ⟨1, by decide⟩ =
      { milkItem with quantity := 4, updatedAt := some "t9" } := by
  constructor
  · exact (updateItem_spec "t9" "nonexistent-id" samplePatch sampleState).1 (by decide)
  · have h := ((updateItem_spec "t9" "p2" samplePatch sampleState).2.2.1 1
      (by decide) (by decide)).1 (by decide)
    rw [h]
    decide

/-- C7: `removeItem`, `removeShoppingItem` and `toggleShoppingItem` with
an id that matches no element leave the state unchanged. -/
theorem missing_id_noops (id : String) (s : StoreState) :
    ((∀ it ∈ s.items, it.id ≠ id) → removeItem id s = s) ∧
    ((∀ it ∈ s.shoppingList, it.id ≠ id) → removeShoppingItem id s = s) ∧
    ((∀ it ∈ s.shoppingList, it.id ≠ id) → toggleShoppingItem id s = s) := by
  refine ⟨?_, ?_, ?_⟩
  · intro h
    have hf : s.items.filter (fun item => item.id ≠ id) = s.items :=
      List.filter_eq_self.mpr (fun a ha => by simpa using h a ha)
    simp only [removeItem]
    rw [hf]
  · intro h
    have hf : s.shoppingList.filter (fun item => item.id ≠ id) = s.shoppingList :=
      List.filter_eq_self.mpr (fun a ha => by simpa using h a ha)
    simp only [removeShoppingItem]
    rw [hf]
  · intro h
    have hmap : s.shoppingList.map (fun item =>
        if item.id = id then { item with checked := !item.checked } else item) =
          s.shoppingList :=
      map_eq_self_of_fix (fun x hx => if_neg (h x hx))
    simp [toggleShoppingItem, hmap]

/-- C7 witness: the three operations at `"nonexistent-id"` on the sample
state are no-ops. -/
theorem missing_id_noops_witness :
    removeItem "nonexistent-id" sampleState = sampleState ∧
    removeShoppingItem "nonexistent-id" sampleState = sampleState ∧
    toggleShoppingItem "nonexistent-id" sampleState = sampleState := by
  refine ⟨?_, ?_, ?_⟩
  · exact (missing_id_noops "nonexistent-id" sampleState).1 (by decide)
  · exact (missing_id_noops "nonexistent-id" sampleState).2.1 (by decide)
  · exact (missing_id_noops "nonexistent-id" sampleState).2.2 (by decide)

/-- Clearing after toggling one id in an all-unchecked list removes
exactly the entries with that id. -/
theorem clear_toggle_aux (id : String) (l : List ShoppingItem)
    (hall : ∀ it ∈ l, it.checked = false) :
    (l.map (fun item => if item.id = id then { item with checked := !item.checked }
        else item)).filter (fun item => !item.checked) =
      l.filter (fun it => it.id ≠ id) := by
  induction l with
  | nil => rfl
  | cons x xs ih =>
    have hx := hall x (List.mem_cons_self x xs)
    have ihh := ih (fun it hit => hall it (List.mem_cons_of_mem x hit))
    by_cases hid : x.id = id
    · simp [List.filter_cons, hid, hx, ihh]
    · simp [List.filter_cons, hid, hx, ihh]

/-- C8: `clearCheckedItems` keeps exactly the unchecked entries, each
unchanged, in their original relative order; toggling an item of an
all-unchecked list and then clearing removes exactly the toggled
entries. -/
theorem clearCheckedItems_spec (id : String) (s : StoreState) :
    (clearCheckedItems s).shoppingList =
      s.shoppingList.filter (fun it => !it.checked) ∧
    (clearCheckedItems s).shoppingList.Sublist s.shoppingList ∧
    (∀ it ∈ (clearCheckedItems s).shoppingList, it.checked = false) ∧
    ((∀ it ∈ s.shoppingList, it.checked = false) →
      (clearCheckedItems (toggleShoppingItem id s)).shoppingList =
        s.shoppingList.filter (fun it => it.id ≠ id)) := by
  refine ⟨rfl, List.filter_sublist _, ?_, ?_⟩
  · intro it hit
    have := List.of_mem_filter hit
    simpa using this
  · intro hall
    exact clear_toggle_aux id s.shoppingList hall

/-- C8 witness: toggling `s1` in the sample state and clearing leaves
exactly the other (unchecked) entry, unchanged. -/
theorem clearCheckedItems_spec_witness :
    (clearCheckedItems (toggleShoppingItem "s1" sampleState)).shoppingList = [shopJam] := by
  have h := (clearCheckedItems_spec "s1" sampleState).2.2.2 (by decide)
  rw [h]
  decide

/-- Frame: `addToShoppingList` never touches the pantry items. -/
theorem addToShoppingList_items (newId now name category : String) (quantity : Int)
    (unit : String) (source : Source) (s : StoreState) :
    (addToShoppingList newId now name category quantity unit source s).items = s.items := by
  unfold addToShoppingList
  split <;> rfl

/-- A fold of `addToShoppingList` calls never touches the pantry items. -/
theorem foldl_addToShoppingList_items (ids : Nat → String) (now : String) (q : Int)
    (src : Source) (l : List (Nat × PantryItem)) (s : StoreState) :
    (l.foldl (fun st p =>
        addToShoppingList (ids p.1) now p.2.name p.2.category q p.2.unit src st) s).items =
      s.items := by
  induction l generalizing s with
  | nil => rfl
  | cons x xs ih => rw [List.foldl_cons, ih, addToShoppingList_items]

/-- C3: `autoAddLowStockToShoppingList` selects exactly the pantry items
with quantity below 2 whose classification is not `expired`, issues an
`addToShoppingList` call with quantity 2 and source `low-stock` for each
(with the item's name, category and unit), and returns the number of
selected pantry items. -/
theorem autoAddLowStock_spec (today : Int) (ids : Nat → String) (now : String)
    (s : StoreState) :
    (autoAddLowStockToShoppingList today ids now s).2 =
      (s.items.filter (fun item => item.quantity < 2 ∧
        getExpirationStatus today item.expirationDate ≠ ExpirationStatus.expired)).length ∧
    (autoAddLowStockToShoppingList today ids now s).1 =
      (s.items.filter (fun item => item.quantity < 2 ∧
        getExpirationStatus today item.expirationDate ≠
          ExpirationStatus.expired)).enum.foldl
        (fun st p => addToShoppingList (ids p.1) now p.2.name p.2.category 2 p.2.unit
          Source.lowStock st) s ∧
    (∀ item ∈ s.items,
      getExpirationStatus today item.expirationDate = ExpirationStatus.expired →
      item ∉ s.items.filter (fun item => item.quantity < 2 ∧
        getExpirationStatus today item.expirationDate ≠ ExpirationStatus.expired)) := by
  have hfeq : s.items.filter (fun item =>
      isLowStock item.quantity 2 &&
        getExpirationStatus today item.expirationDate ≠ ExpirationStatus.expired) =
      s.items.filter (fun item => item.quantity < 2 ∧
        getExpirationStatus today item.expirationDate ≠ ExpirationStatus.expired) :=
    List.filter_congr (fun x _ => by simp [isLowStock])
  refine ⟨?_, ?_, ?_⟩
  · simp only [autoAddLowStockToShoppingList, hfeq]
  · simp only [autoAddLowStockToShoppingList, hfeq]
  · intro item _ hexp hmem
    have := List.of_mem_filter hmem
    simp [hexp] at this

/-- C3 witness: in the sample state the two case-insensitive `Milk` items
(quantities 1 and 0, not expired) are selected — the expired low-stock
`Bread` and the stocked `Rice` are not — so the count is 2, while merging
produces a single new entry of quantity 4 and source `low-stock`. -/
theorem autoAddLowStock_spec_witness :
    (autoAddLowStockToShoppingList 0 freshIds "t1" sampleState).2 = 2 ∧
    (autoAddLowStockToShoppingList 0 freshIds "t1" sampleState).1.shoppingList =
      [shopEggs, shopJam,
       { id := "fresh0", name := "Milk", category := "Dairy", quantity := 4,
         unit := "liters", checked := false, source := Source.lowStock,
         createdAt := "t1" }] := by
  constructor
  · rw [(autoAddLowStock_spec 0 freshIds "t1" sampleState).1]
    decide
  · decide

/-- C4: `autoAddExpiredToShoppingList` selects exactly the pantry items
classified `expired`, issues an `addToShoppingList` call with quantity 1
and source `expired` for each (with the item's name, category and unit),
and returns the number of selected pantry items. -/
theorem autoAddExpired_spec (today : Int) (ids : Nat → String) (now : String)
    (s : StoreState) :
    (autoAddExpiredToShoppingList today ids now s).2 =
      (s.items.filter (fun item =>
        getExpirationStatus today item.expirationDate = ExpirationStatus.expired)).length ∧
    (autoAddExpiredToShoppingList today ids now s).1 =
      (s.items.filter (fun item =>
        getExpirationStatus today item.expirationDate = ExpirationStatus.expired)).enum.foldl
        (fun st p => addToShoppingList (ids p.1) now p.2.name p.2.category 1 p.2.unit
          Source.expired st) s ∧
    (∀ item ∈ s.items,
      item ∈ s.items.filter (fun item =>
          getExpirationStatus today item.expirationDate = ExpirationStatus.expired) ↔
        item ∈ s.items ∧
          getExpirationStatus today item.expirationDate = ExpirationStatus.expired) :=
  ⟨rfl, rfl, fun item _ => by simp [List.mem_filter]⟩

/-- C4 witness: on the store holding only the `Bread` item that expired
yesterday, the call returns 1 and the sole resulting entry has quantity 1
and source `expired`. -/
theorem autoAddExpired_spec_witness :
    (autoAddExpiredToShoppingList 0 freshIds "t1" breadOnlyState).2 = 1 ∧
    (autoAddExpiredToShoppingList 0 freshIds "t1" breadOnlyState).1.shoppingList =
      [{ id := "fresh0", name := "Bread", category := "Bakery", quantity := 1,
         unit := "pieces", checked := false, source := Source.expired,
         createdAt := "t1" }] := by
  constructor
  · rw [(autoAddExpired_spec 0 freshIds "t1" breadOnlyState).1]
    decide
  · decide

/-- C10: pantry operations leave the shopping list unchanged, and
shopping-list operations (including both auto-populate operations) leave
the pantry items unchanged. -/
theorem frame_spec (newId now id name category : String) (data : PantryItemFormData)
    (patch : PantryItemFormPatch) (quantity : Int) (unit : String) (source : Source)
    (today : Int) (ids : Nat → String) (s : StoreState) :
    (addItem newId now data s).shoppingList = s.shoppingList ∧
    (updateItem now id patch s).shoppingList = s.shoppingList ∧
    (removeItem id s).shoppingList = s.shoppingList ∧
    (addToShoppingList newId now name category quantity unit source s).items = s.items ∧
    (toggleShoppingItem id s).items = s.items ∧
    (removeShoppingItem id s).items = s.items ∧
    (clearCheckedItems s).items = s.items ∧
    (clearShoppingList s).items = s.items ∧
    (autoAddLowStockToShoppingList today ids now s).1.items = s.items ∧
    (autoAddExpiredToShoppingList today ids now s).1.items = s.items := by
  refine ⟨rfl, rfl, rfl,
    addToShoppingList_items newId now name category quantity unit source s,
    rfl, rfl, rfl, rfl, ?_, ?_⟩
  · simp only [autoAddLowStockToShoppingList]
    exact foldl_addToShoppingList_items ids now 2 Source.lowStock _ s
  · simp only [autoAddExpiredToShoppingList]
    exact foldl_addToShoppingList_items ids now 1 Source.expired _ s

end Pantryfy
